import Mathlib

/-!
Verification of the robotframework-apachetomcat library
(`src/ApacheTomcatManager.py`) against its natural-language specification.

The Python module is shallowly embedded:
* `RequestConnection` and `ApacheTomcatManager` mirror the classes in
  `src/ApacheTomcatManager.py`; methods become explicit state-passing
  functions, exceptions become `Except TomcatError`.
* The connection registry (`robot.utils.ConnectionCache`, an external
  collaborator whose code is not in the repository) is modelled from the
  spec (sections 3 and 4.1): see `ConnectionCache` below.
* HTTP responses are passed in explicitly as `HttpResponse` values; the
  `requests` library's `raise_for_status` is modelled from its documented
  behaviour (raises for 4xx/5xx status codes).
* Python string operations (`split`, `split(sep, 1)`, `rstrip`, `lstrip`)
  are embedded as structurally recursive functions on character lists so
  that concrete evaluations reduce in the kernel.
-/

deriving instance DecidableEq for Except

namespace Tomcat

/-! ### Python string primitives -/

/-- Python `s.split(sep)` for a one-character separator, on character
lists: splitting the empty string yields `[[]]`, and every occurrence of
the separator starts a new segment. -/
def splitCharAux (sep : Char) : List Char → List Char → List (List Char)
  | [], acc => [acc.reverse]
  | c :: cs, acc =>
      if c = sep then acc.reverse :: splitCharAux sep cs []
      else splitCharAux sep cs (c :: acc)

/-- Python `s.split(sep)` for a one-character separator. -/
def pySplit (s : String) (sep : Char) : List String :=
  (splitCharAux sep s.data []).map String.mk

/-- Python `s.split(sep, 1)`: at most one split, at the first occurrence
of the separator. -/
def splitOnceAux (sep : Char) : List Char → List Char → List (List Char)
  | [], acc => [acc.reverse]
  | c :: cs, acc =>
      if c = sep then [acc.reverse, cs]
      else splitOnceAux sep cs (c :: acc)

/-- Python `s.split(sep, 1)` for a one-character separator. -/
def pySplitOnce (s : String) (sep : Char) : List String :=
  (splitOnceAux sep s.data []).map String.mk

/-- Python `s.rstrip()`: drop trailing whitespace. -/
def pyRstrip (s : String) : String :=
  String.mk ((s.data.reverse.dropWhile Char.isWhitespace).reverse)

/-- Python `s.lstrip()`: drop leading whitespace. -/
def pyLstrip (s : String) : String :=
  String.mk (s.data.dropWhile Char.isWhitespace)

/-- Python `l[1:-1]`: drop the first and the last element. -/
def pyInnerSlice (l : List String) : List String :=
  (l.drop 1).dropLast

/-! ### Data model -/

/-- `RequestConnection.__init__` from `src/ApacheTomcatManager.py`:
an immutable descriptor holding host, port, the derived base url,
basic-auth credentials and the timeout. -/
structure RequestConnection where
  host : String
  port : Nat
  url : String
  auth : String × String
  timeout : Nat
deriving DecidableEq, Repr

/-- `RequestConnection(host, port, username, password, timeout)`. -/
def RequestConnection.make (host : String) (port : Nat)
    (username password : String) (timeout : Nat) : RequestConnection :=
  { host := host
    port := port
    url := "http://" ++ host ++ ":" ++ toString port ++ "/manager/text"
    auth := (username, password)
    timeout := timeout }

/-- `RequestConnection.close`: the body is `pass`; closing a descriptor
releases no resource. -/
def RequestConnection.close (_ : RequestConnection) : Unit := ()

/-- The error taxonomy: one constructor per raise site of the Python
module (each raise site uses a distinct message) plus the registry's
not-found error and the `requests.HTTPError` from `raise_for_status`. -/
inductive TomcatError where
  /-- `Exception('No open connection to Apache Tomcat server.')`. -/
  | noOpenConnection : TomcatError
  /-- the registry's not-found error: the switch target does not resolve
      to a live connection. -/
  | connectionNotFound : TomcatError
  /-- `requests.HTTPError` raised by `response.raise_for_status()`. -/
  | httpError (status : Nat) : TomcatError
  /-- Python `ValueError` from tuple unpacking of a split line. -/
  | valueError : TomcatError
  /-- `Exception('Application  is not ...' + response.text)` from
      `application_start` / `application_stop` / `application_reload`. -/
  | commandFailed (msg : String) : TomcatError
  /-- `Exception('Application with path "..." not found on Apache Tomcat')`. -/
  | applicationNotFound (path : String) : TomcatError
deriving DecidableEq, Repr

/-- An identifier accepted by `switch`: a numeric index or an alias. -/
inductive ConnId where
  | byIndex : Nat → ConnId
  | byAlias : String → ConnId
deriving DecidableEq, Repr

/-- Modelled from the spec: the registry state of
`robot.utils.ConnectionCache` (spec section 3), whose code is not part of
this repository. Slots are an ordered sequence indexed from 1 (index 0
reserved for "no connection"), plus an alias map and the current-index
cursor. `close_all` empties the slot sequence, which is the spec's
"tombstones every slot … resets the index counter": afterwards no old
index resolves and the next registration yields index 1. -/
structure ConnectionCache where
  connections : List RequestConnection
  aliases : List (String × Nat)
  currentIndex : Nat
deriving DecidableEq, Repr

/-- The empty registry. -/
def ConnectionCache.empty : ConnectionCache :=
  { connections := [], aliases := [], currentIndex := 0 }

/-- Modelled from the spec: `register(descriptor, alias?) → index`
appends the descriptor as a new slot, binds the alias (a later binding
for the same alias wins), sets the new index as current and returns it. -/
def ConnectionCache.register (c : ConnectionCache) (conn : RequestConnection)
    (al : Option String) : ConnectionCache × Nat :=
  let conns := c.connections ++ [conn]
  let idx := conns.length
  let aliases :=
    match al with
    | some a => (a, idx) :: c.aliases
    | none => c.aliases
  ({ connections := conns, aliases := aliases, currentIndex := idx }, idx)

/-- Modelled from the spec: resolve an identifier — try the alias table
first, else treat it as a numeric index — to an index of a live slot. -/
def ConnectionCache.resolve (c : ConnectionCache) : ConnId → Option Nat
  | .byIndex i =>
      if 1 ≤ i ∧ i ≤ c.connections.length then some i else none
  | .byAlias a =>
      match c.aliases.lookup a with
      | some i => if 1 ≤ i ∧ i ≤ c.connections.length then some i else none
      | none =>
          match a.toNat? with
          | some i => if 1 ≤ i ∧ i ≤ c.connections.length then some i else none
          | none => none

/-- Modelled from the spec: `switch(index_or_alias)` resolves the
identifier, fails with the not-found error if it does not resolve to a
live slot, and otherwise sets the current index to the resolved index
and yields that slot's descriptor. -/
def ConnectionCache.switch (c : ConnectionCache) (ia : ConnId) :
    Except TomcatError (ConnectionCache × RequestConnection) :=
  match c.resolve ia with
  | none => .error .connectionNotFound
  | some i =>
      match c.connections[i - 1]? with
      | none => .error .connectionNotFound
      | some conn => .ok ({ c with currentIndex := i }, conn)

/-- Modelled from the spec: `close_all()` tombstones every slot, clears
the alias map, resets the index counter (so the next `register` yields
index 1) and sets the current index to 0. -/
def ConnectionCache.close_all (_ : ConnectionCache) : ConnectionCache :=
  ConnectionCache.empty

/-- The state of an `ApacheTomcatManager` instance: the `_connection`
field, the `headers` dict and the `_cache` registry. -/
structure ApacheTomcatManager where
  connection : Option RequestConnection
  headers : List (String × String)
  cache : ConnectionCache
deriving DecidableEq, Repr

/-- `ApacheTomcatManager.__init__`. -/
def ApacheTomcatManager.init : ApacheTomcatManager :=
  { connection := none, headers := [], cache := ConnectionCache.empty }

/-- Insertion into a Python dict rendered as an association list:
an existing key keeps its position and gets the new value, a new key is
appended. -/
def dictInsert : List (String × String) → String → String → List (String × String)
  | [], k, v => [(k, v)]
  | (k', v') :: rest, k, v =>
      if k' = k then (k, v) :: rest else (k', v') :: dictInsert rest k v

/-- `connect_to_tomcat(host, port, username, password, timeout, alias)`:
sets the `Content-Type` header, builds a fresh descriptor, stores it in
`self._connection` and registers it in the cache, returning the new
index. -/
def ApacheTomcatManager.connect_to_tomcat (m : ApacheTomcatManager)
    (host : String) (port : Nat) (username password : String)
    (timeout : Nat) (al : Option String) : ApacheTomcatManager × Nat :=
  let headers := dictInsert m.headers "Content-Type" "text/plain"
  let conn := RequestConnection.make host port username password timeout
  let res := m.cache.register conn al
  ({ connection := some conn, headers := headers, cache := res.1 }, res.2)

/-- `switch_tomcat_connection(index_or_alias)`: remembers the cache's
current index, switches the cache, stores the resulting descriptor in
`self._connection` and returns the old index. A raise from
`self._cache.switch` propagates, leaving the state unchanged. -/
def ApacheTomcatManager.switch_tomcat_connection (m : ApacheTomcatManager)
    (ia : ConnId) : ApacheTomcatManager × Except TomcatError Nat :=
  let old_index := m.cache.currentIndex
  match m.cache.switch ia with
  | .error e => (m, .error e)
  | .ok (cache, conn) =>
      ({ m with cache := cache, connection := some conn }, .ok old_index)

/-- `disconnect_from_tomcat()`: if a current connection exists, log and
call its `close()` (whose body is `pass`). No field is assigned. -/
def ApacheTomcatManager.disconnect_from_tomcat (m : ApacheTomcatManager) :
    ApacheTomcatManager :=
  match m.connection with
  | some c =>
      let _u := c.close
      m
  | none => m

/-- `close_all_tomcat_connections()`: `self._connection =
self._cache.close_all()`. The cache's `close_all` (modelled from the
spec) leaves no active connection, so the stored connection becomes the
no-connection value. -/
def ApacheTomcatManager.close_all_tomcat_connections (m : ApacheTomcatManager) :
    ApacheTomcatManager :=
  { m with connection := none, cache := m.cache.close_all }

/-! ### HTTP boundary -/

/-- The observable part of a `requests` response: status code and body. -/
structure HttpResponse where
  status : Nat
  text : String
deriving DecidableEq, Repr

/-- `response.raise_for_status()`, modelled from the `requests` library's
documented behaviour: raises `HTTPError` exactly for client-error (4xx)
and server-error (5xx) status codes. -/
def raise_for_status (r : HttpResponse) : Except TomcatError Unit :=
  if 400 ≤ r.status ∧ r.status < 600 then .error (.httpError r.status)
  else .ok ()

/-! ### Command client -/

/-- `list()`: after the connection guard and `raise_for_status`, split the
body on newlines, drop the first and last lines, and split each remaining
line on colons. -/
def ApacheTomcatManager.list (m : ApacheTomcatManager) (r : HttpResponse) :
    Except TomcatError (List (List String)) :=
  match m.connection with
  | none => .error .noOpenConnection
  | some _ =>
      match raise_for_status r with
      | .error e => .error e
      | .ok _ =>
          let resp_list := pySplit r.text '\n'
          .ok ((pyInnerSlice resp_list).map (fun lines => pySplit lines ':'))

/-- The loop body of `application_status`: scan the rows, unpacking each
as `app_name, status, _, _` (a row that is not exactly 4 fields raises
`ValueError`), returning the status of the first row whose path matches,
and raising the application-not-found error after an unsuccessful scan. -/
def scanStatus (path : String) : List (List String) → Except TomcatError String
  | [] => .error (.applicationNotFound path)
  | row :: rest =>
      match row with
      | [app_name, status, _, _] =>
          if app_name = path then .ok status else scanStatus path rest
      | _ => .error .valueError

/-- `application_status(path)`: obtain the rows via `list()` and scan
them. -/
def ApacheTomcatManager.application_status (m : ApacheTomcatManager)
    (r : HttpResponse) (path : String) : Except TomcatError String :=
  match m.list r with
  | .error e => .error e
  | .ok app_list => scanStatus path app_list

/-- One line of the `serverinfo` loop: `key, value =
lines.rstrip().split(":", 1)` (a line with no colon raises `ValueError`),
then the value is left-stripped. -/
def serverinfoParseLine (line : String) : Except TomcatError (String × String) :=
  match pySplitOnce (pyRstrip line) ':' with
  | [k, v] => .ok (k, pyLstrip v)
  | _ => .error .valueError

/-- The `serverinfo` loop over the kept lines, building the dict. -/
def serverinfoLines : List String → List (String × String) →
    Except TomcatError (List (String × String))
  | [], d => .ok d
  | line :: rest, d =>
      match serverinfoParseLine line with
      | .error e => .error e
      | .ok (k, v) => serverinfoLines rest (dictInsert d k v)

/-- `serverinfo()`: after the connection guard and `raise_for_status`,
split the body on newlines, drop the first and last lines, and fold the
remaining lines into a key/value dict. -/
def ApacheTomcatManager.serverinfo (m : ApacheTomcatManager) (r : HttpResponse) :
    Except TomcatError (List (String × String)) :=
  match m.connection with
  | none => .error .noOpenConnection
  | some _ =>
      match raise_for_status r with
      | .error e => .error e
      | .ok _ =>
          let resp_list := pySplit r.text '\n'
          serverinfoLines (pyInnerSlice resp_list) []

/-- The exact success body `application_stop` matches against:
`f'OK - Stopped application at context path {path}\n'`. -/
def stopTemplate (path : String) : String :=
  "OK - Stopped application at context path " ++ path ++ "\n"

/-- The exact success body `application_start` matches against:
`f'OK - Started application at context path {path}\n'`. -/
def startTemplate (path : String) : String :=
  "OK - Started application at context path " ++ path ++ "\n"

/-- The exact success body `application_reload` matches against:
`f'OK - Reloaded application at context path {path}\n'`. -/
def reloadTemplate (path : String) : String :=
  "OK - Reloaded application at context path " ++ path ++ "\n"

/-- `application_stop(path)`: connection guard, then an exact-match test
of the body against the success template; the status code is never
inspected. -/
def ApacheTomcatManager.application_stop (m : ApacheTomcatManager)
    (r : HttpResponse) (path : String) : Except TomcatError Unit :=
  match m.connection with
  | none => .error .noOpenConnection
  | some _ =>
      if r.text = stopTemplate path then .ok ()
      else .error (.commandFailed ("Application  is not stopped:\n" ++ r.text))

/-- `application_start(path)`: connection guard, then an exact-match test
of the body against the success template; the status code is never
inspected. -/
def ApacheTomcatManager.application_start (m : ApacheTomcatManager)
    (r : HttpResponse) (path : String) : Except TomcatError Unit :=
  match m.connection with
  | none => .error .noOpenConnection
  | some _ =>
      if r.text = startTemplate path then .ok ()
      else .error (.commandFailed ("Application  is not started:\n" ++ r.text))

/-- `application_reload(path)`: connection guard, then an exact-match test
of the body against the success template (the failure message says
"is not started", as in the source); the status code is never
inspected. -/
def ApacheTomcatManager.application_reload (m : ApacheTomcatManager)
    (r : HttpResponse) (path : String) : Except TomcatError Unit :=
  match m.connection with
  | none => .error .noOpenConnection
  | some _ =>
      if r.text = reloadTemplate path then .ok ()
      else .error (.commandFailed ("Application  is not started:\n" ++ r.text))

/-! ### Concrete states used by witnesses and counterexamples -/

/-- A manager with one registered connection (index 1, current). -/
def demoManager : ApacheTomcatManager :=
  (ApacheTomcatManager.init.connect_to_tomcat "h" 8080 "tomcat" "tomcat" 15 (some "a1")).1

/-- A manager with two registered connections (index 2 current). -/
def demoManager2 : ApacheTomcatManager :=
  ((ApacheTomcatManager.init.connect_to_tomcat "h1" 8081 "u" "p" 5
      (some "a1")).1.connect_to_tomcat "h2" 8082 "u" "p" 5 (some "a2")).1

/-! ### Traces of register calls -/

/-- The arguments of one `connect_to_tomcat` call. -/
structure ConnectArgs where
  host : String
  port : Nat
  username : String
  password : String
  timeout : Nat
  al : Option String
deriving DecidableEq, Repr

/-- Run a sequence of `connect_to_tomcat` calls, collecting the returned
indices in order. -/
def connectMany (m : ApacheTomcatManager) :
    List ConnectArgs → ApacheTomcatManager × List Nat
  | [] => (m, [])
  | a :: rest =>
      let p := m.connect_to_tomcat a.host a.port a.username a.password a.timeout a.al
      let q := connectMany p.1 rest
      (q.1, p.2 :: q.2)

/-! ### Registry lemmas -/

theorem connect_to_tomcat_index (m : ApacheTomcatManager) (h : String) (p : Nat)
    (u w : String) (t : Nat) (al : Option String) :
    (m.connect_to_tomcat h p u w t al).2 = m.cache.connections.length + 1 ∧
    (m.connect_to_tomcat h p u w t al).1.cache.connections.length =
      m.cache.connections.length + 1 := by
  simp [ApacheTomcatManager.connect_to_tomcat, ConnectionCache.register]

theorem connectMany_indices (l : List ConnectArgs) (m : ApacheTomcatManager) :
    (connectMany m l).2 =
      List.range' (m.cache.connections.length + 1) l.length ∧
    (connectMany m l).1.cache.connections.length =
      m.cache.connections.length + l.length := by
  induction l generalizing m with
  | nil => simp [connectMany]
  | cons a rest ih =>
      have hc := connect_to_tomcat_index m a.host a.port a.username a.password a.timeout a.al
      have ihm := ih (m.connect_to_tomcat a.host a.port a.username a.password a.timeout a.al).1
      constructor
      · simp only [connectMany, List.length_cons, List.range'_succ]
        rw [ihm.1, hc.1, hc.2]
      · simp only [connectMany, List.length_cons]
        rw [ihm.2, hc.2]
        omega

/-- Claim C1: for every sequence of `connect_to_tomcat` (register) calls
on one `ApacheTomcatManager` instance, the returned indices are strictly
increasing, and from a fresh instance they start at 1 (they are exactly
`1, 2, …`); after `close_all_tomcat_connections` the counter is reset, so
the indices returned by the following calls again start at 1. -/
theorem connect_indices_strictly_increasing
    (m : ApacheTomcatManager) (l l2 : List ConnectArgs) :
    (connectMany m l).2 =
      List.range' (m.cache.connections.length + 1) l.length ∧
    List.Pairwise (· < ·) (connectMany m l).2 ∧
    (connectMany ApacheTomcatManager.init l).2 = List.range' 1 l.length ∧
    (connectMany ((connectMany m l).1.close_all_tomcat_connections) l2).2 =
      List.range' 1 l2.length := by
  refine ⟨(connectMany_indices l m).1, ?_, ?_, ?_⟩
  · rw [(connectMany_indices l m).1]
    exact List.pairwise_lt_range' _ _ 1 (by decide)
  · have h := (connectMany_indices l ApacheTomcatManager.init).1
    simpa [ApacheTomcatManager.init, ConnectionCache.empty] using h
  · have h := (connectMany_indices l2
      ((connectMany m l).1.close_all_tomcat_connections)).1
    simpa [ApacheTomcatManager.close_all_tomcat_connections,
      ConnectionCache.close_all, ConnectionCache.empty] using h

/-- Claim C2 counterexample: in the state with one live (current)
connection, `disconnect_from_tomcat` does not set the current index to 0
— it stays 1 — and a subsequent `list` succeeds instead of failing with
the no-active-connection error. -/
theorem disconnect_keeps_current_cex :
    demoManager.disconnect_from_tomcat.cache.currentIndex = 1 ∧
    demoManager.disconnect_from_tomcat.cache.currentIndex ≠ 0 ∧
    demoManager.disconnect_from_tomcat.list
        ⟨200, "OK\n/app:running:2:app\n"⟩ =
      .ok [["/app", "running", "2", "app"]] := by
  decide

/-- Claim C2 amended: `disconnect_from_tomcat` only invokes the current
descriptor's `close()`, whose body is `pass`; it leaves the whole manager
state — including the registry's current index — unchanged, so subsequent
`list`/`serverinfo` calls behave exactly as before the disconnect. -/
theorem disconnect_is_noop (m : ApacheTomcatManager) :
    m.disconnect_from_tomcat = m ∧
    (∀ r, m.disconnect_from_tomcat.list r = m.list r) ∧
    (∀ r, m.disconnect_from_tomcat.serverinfo r = m.serverinfo r) := by
  have h : m.disconnect_from_tomcat = m := by
    cases hc : m.connection <;>
      simp [ApacheTomcatManager.disconnect_from_tomcat, hc]
  exact ⟨h, fun r => by rw [h], fun r => by rw [h]⟩

theorem resolve_bounds (c : ConnectionCache) (id : ConnId) (i : Nat)
    (h : c.resolve id = some i) : 1 ≤ i ∧ i ≤ c.connections.length := by
  cases id with
  | byIndex j =>
      simp only [ConnectionCache.resolve] at h
      split at h
      · cases h
        assumption
      · cases h
  | byAlias a =>
      simp only [ConnectionCache.resolve] at h
      split at h
      · split at h
        · cases h
          assumption
        · cases h
      · split at h
        · split at h
          · cases h
            assumption
          · cases h
        · cases h

theorem cache_switch_ok (c : ConnectionCache) (id : ConnId) (i : Nat)
    (h : c.resolve id = some i) :
    ∃ conn, c.connections[i - 1]? = some conn ∧
      c.switch id = .ok ({ c with currentIndex := i }, conn) := by
  have hb := resolve_bounds c id i h
  have hlt : i - 1 < c.connections.length := by omega
  refine ⟨c.connections[i - 1], List.getElem?_eq_getElem hlt, ?_⟩
  unfold ConnectionCache.switch
  rw [h]
  simp [List.getElem?_eq_getElem hlt]

theorem cache_switch_notFound (c : ConnectionCache) (id : ConnId)
    (h : c.resolve id = none) : c.switch id = .error .connectionNotFound := by
  unfold ConnectionCache.switch
  simp [h]

/-- Claim C3: when the identifier resolves to a live slot,
`switch_tomcat_connection` returns the index that was current before the
call (whatever it is, 0 included); and when the previous index P pointed
at a live slot, a subsequent `switch_tomcat_connection P` round-trips: it
returns the index of the intermediate connection, and the connection that
was current before the first switch (index P and its descriptor) is
current again. -/
theorem switch_returns_previous_and_roundtrips (m : ApacheTomcatManager)
    (id : ConnId) (b : Nat) (hres : m.cache.resolve id = some b) :
    (m.switch_tomcat_connection id).2 = .ok m.cache.currentIndex ∧
    (1 ≤ m.cache.currentIndex →
     m.cache.currentIndex ≤ m.cache.connections.length →
      ((m.switch_tomcat_connection id).1.switch_tomcat_connection
          (.byIndex m.cache.currentIndex)).2 = .ok b ∧
      ((m.switch_tomcat_connection id).1.switch_tomcat_connection
          (.byIndex m.cache.currentIndex)).1.cache.currentIndex =
        m.cache.currentIndex ∧
      ((m.switch_tomcat_connection id).1.switch_tomcat_connection
          (.byIndex m.cache.currentIndex)).1.connection =
        m.cache.connections[m.cache.currentIndex - 1]?) := by
  obtain ⟨conn, hg, hsw⟩ := cache_switch_ok m.cache id b hres
  have hfst : m.switch_tomcat_connection id =
      ({ m with cache := { m.cache with currentIndex := b },
                connection := some conn },
       .ok m.cache.currentIndex) := by
    simp [ApacheTomcatManager.switch_tomcat_connection, hsw]
  refine ⟨by rw [hfst], fun h1 h2 => ?_⟩
  have hres2 : ({ m.cache with currentIndex := b } : ConnectionCache).resolve
      (.byIndex m.cache.currentIndex) = some m.cache.currentIndex := by
    simp [ConnectionCache.resolve, h1, h2]
  obtain ⟨conn2, hg2, hsw2⟩ :=
    cache_switch_ok { m.cache with currentIndex := b }
      (.byIndex m.cache.currentIndex) m.cache.currentIndex hres2
  rw [hfst]
  have hsnd : ({ m with cache := { m.cache with currentIndex := b },
                        connection := some conn } :
      ApacheTomcatManager).switch_tomcat_connection
        (.byIndex m.cache.currentIndex) =
      ({ m with cache := { m.cache with currentIndex := m.cache.currentIndex },
                connection := some conn2 },
       .ok b) := by
    simp [ApacheTomcatManager.switch_tomcat_connection, hsw2]
  rw [hsnd]
  exact ⟨rfl, rfl, hg2.symm⟩

/-- Claim C3 witness: in the two-connection state with index 2 current,
switching to alias "a1" returns previous index 2, and switching back to
index 2 round-trips. -/
theorem switch_roundtrip_witness :
    demoManager2.cache.resolve (.byAlias "a1") = some 1 ∧
    1 ≤ demoManager2.cache.currentIndex ∧
    demoManager2.cache.currentIndex ≤ demoManager2.cache.connections.length ∧
    (demoManager2.switch_tomcat_connection (.byAlias "a1")).2 =
      .ok demoManager2.cache.currentIndex ∧
    ((demoManager2.switch_tomcat_connection
        (.byAlias "a1")).1.switch_tomcat_connection
        (.byIndex demoManager2.cache.currentIndex)).2 = .ok 1 :=
  ⟨by decide, by decide, by decide,
   (switch_returns_previous_and_roundtrips demoManager2 (.byAlias "a1") 1
      (by decide)).1,
   ((switch_returns_previous_and_roundtrips demoManager2 (.byAlias "a1") 1
      (by decide)).2 (by decide) (by decide)).1⟩

/-- Claim C4: `switch_tomcat_connection` mutates only the
current-connection selection: the slot sequence and the alias map (hence
every stored descriptor) are unchanged by every call, and when the
identifier does not resolve to a live slot the call fails with the
not-found error and leaves the whole manager state exactly as before. -/
theorem switch_frame (m : ApacheTomcatManager) (id : ConnId) :
    (m.switch_tomcat_connection id).1.cache.connections =
      m.cache.connections ∧
    (m.switch_tomcat_connection id).1.cache.aliases = m.cache.aliases ∧
    (m.cache.resolve id = none →
      m.switch_tomcat_connection id = (m, .error .connectionNotFound)) := by
  cases hres : m.cache.resolve id with
  | none =>
      have hsw := cache_switch_notFound m.cache id hres
      simp [ApacheTomcatManager.switch_tomcat_connection, hsw]
  | some i =>
      obtain ⟨conn, _, hsw⟩ := cache_switch_ok m.cache id i hres
      simp [ApacheTomcatManager.switch_tomcat_connection, hsw]

/-- Claim C4 witness: index 5 does not resolve in the two-connection
state, and the failed switch leaves the state exactly as before. -/
theorem switch_frame_witness :
    demoManager2.cache.resolve (.byIndex 5) = none ∧
    demoManager2.switch_tomcat_connection (.byIndex 5) =
      (demoManager2, .error .connectionNotFound) :=
  ⟨by decide, (switch_frame demoManager2 (.byIndex 5)).2.2 (by decide)⟩

/-- Claim C5: with a live connection, for every path and every 2xx
response, `application_start` / `application_stop` / `application_reload`
succeed exactly when the body is the literal success template for that
command — the unencoded input path substituted, trailing newline included
— and any other body raises the command-failed error carrying the raw
response body as detail (the reload failure message reads
"is not started", as in the source). -/
theorem appcommand_exact_body_match (m : ApacheTomcatManager)
    (c : RequestConnection) (r : HttpResponse) (path : String)
    (hc : m.connection = some c) (_h2xx : 200 ≤ r.status ∧ r.status < 300) :
    (m.application_start r path = .ok () ↔ r.text = startTemplate path) ∧
    (r.text ≠ startTemplate path →
      m.application_start r path =
        .error (.commandFailed ("Application  is not started:\n" ++ r.text))) ∧
    (m.application_stop r path = .ok () ↔ r.text = stopTemplate path) ∧
    (r.text ≠ stopTemplate path →
      m.application_stop r path =
        .error (.commandFailed ("Application  is not stopped:\n" ++ r.text))) ∧
    (m.application_reload r path = .ok () ↔ r.text = reloadTemplate path) ∧
    (r.text ≠ reloadTemplate path →
      m.application_reload r path =
        .error (.commandFailed ("Application  is not started:\n" ++ r.text))) := by
  unfold ApacheTomcatManager.application_start ApacheTomcatManager.application_stop
    ApacheTomcatManager.application_reload
  rw [hc]
  by_cases h1 : r.text = startTemplate path <;>
    by_cases h2 : r.text = stopTemplate path <;>
      by_cases h3 : r.text = reloadTemplate path <;>
        simp [h1, h2, h3]

/-- Claim C5 witness: in a live-connection state, the exact success body
for `/app` is accepted by `application_start`, and a failure body raises
the command-failed error carrying that body. -/
theorem appcommand_exact_body_match_witness :
    demoManager2.connection = some (RequestConnection.make "h2" 8082 "u" "p" 5) ∧
    (200 ≤ (200 : Nat) ∧ (200 : Nat) < 300) ∧
    demoManager2.application_start
        ⟨200, "OK - Started application at context path /app\n"⟩ "/app" =
      .ok () ∧
    demoManager2.application_start ⟨200, "FAIL - oops"⟩ "/app" =
      .error (.commandFailed ("Application  is not started:\nFAIL - oops")) :=
  ⟨by decide, by decide,
   (appcommand_exact_body_match demoManager2
      (RequestConnection.make "h2" 8082 "u" "p" 5)
      ⟨200, "OK - Started application at context path /app\n"⟩ "/app"
      (by decide) (by decide)).1.mpr (by decide),
   (appcommand_exact_body_match demoManager2
      (RequestConnection.make "h2" 8082 "u" "p" 5)
      ⟨200, "FAIL - oops"⟩ "/app" (by decide) (by decide)).2.1 (by decide)⟩

/-- Claim C6 counterexample: on the spec's example body (which ends with
a blank line followed by the final newline), `list` returns three rows —
the expected two plus a spurious `[""]` row from the blank line — so it
does not return exactly the two claimed rows. -/
theorem list_example_body_cex :
    demoManager.list ⟨200, "OK\n/app:running:2:app\n/root:stopped:0:ROOT\n\n"⟩ =
      .ok [["/app", "running", "2", "app"], ["/root", "stopped", "0", "ROOT"],
           [""]] ∧
    demoManager.list ⟨200, "OK\n/app:running:2:app\n/root:stopped:0:ROOT\n\n"⟩ ≠
      .ok [["/app", "running", "2", "app"], ["/root", "stopped", "0", "ROOT"]] := by
  decide

/-- Claim C6 amended: `list` splits the body on newlines, discards the
first and last lines, and splits each remaining line on colons. On the
body `"OK\n/app:running:2:app\n/root:stopped:0:ROOT\n\n"` this keeps the
blank line before the final newline, yielding the two 4-field rows plus a
trailing `[""]` row; on the body with a single trailing newline it yields
exactly the two rows. -/
theorem list_parsing_amended (m : ApacheTomcatManager)
    (c : RequestConnection) (hc : m.connection = some c) :
    m.list ⟨200, "OK\n/app:running:2:app\n/root:stopped:0:ROOT\n\n"⟩ =
      .ok [["/app", "running", "2", "app"], ["/root", "stopped", "0", "ROOT"],
           [""]] ∧
    m.list ⟨200, "OK\n/app:running:2:app\n/root:stopped:0:ROOT\n"⟩ =
      .ok [["/app", "running", "2", "app"], ["/root", "stopped", "0", "ROOT"]] := by
  unfold ApacheTomcatManager.list
  rw [hc]
  exact ⟨rfl, rfl⟩

/-- Claim C6 witness: the amended statement instantiated at the
one-connection state. -/
theorem list_parsing_amended_witness :
    demoManager.connection =
      some (RequestConnection.make "h" 8080 "tomcat" "tomcat" 15) ∧
    demoManager.list ⟨200, "OK\n/app:running:2:app\n/root:stopped:0:ROOT\n"⟩ =
      .ok [["/app", "running", "2", "app"], ["/root", "stopped", "0", "ROOT"]] :=
  ⟨by decide,
   (list_parsing_amended demoManager
      (RequestConnection.make "h" 8080 "tomcat" "tomcat" 15) (by decide)).2⟩

/-- Claim C7 counterexample: on the spec's example body (blank line before
the final newline), `serverinfo` raises the unpacking `ValueError` while
splitting the kept blank line, instead of returning the claimed mapping. -/
theorem serverinfo_example_body_cex :
    demoManager.serverinfo ⟨200, "OK\nJVM Vendor: Oracle\nOS Name: Linux\n\n"⟩ =
      .error .valueError ∧
    demoManager.serverinfo ⟨200, "OK\nJVM Vendor: Oracle\nOS Name: Linux\n\n"⟩ ≠
      .ok [("JVM Vendor", "Oracle"), ("OS Name", "Linux")] := by
  decide

/-- Claim C7 amended: `serverinfo` discards the first and last
newline-separated lines and splits each remaining right-stripped line
exactly once on the first colon into a key and a left-trimmed value. On
the body `"OK\nJVM Vendor: Oracle\nOS Name: Linux\n\n"` the kept blank
line has no colon, so the call fails with the unpacking `ValueError`; on
the body with a single trailing newline it yields exactly the mapping
`{"JVM Vendor": "Oracle", "OS Name": "Linux"}`. -/
theorem serverinfo_parsing_amended (m : ApacheTomcatManager)
    (c : RequestConnection) (hc : m.connection = some c) :
    m.serverinfo ⟨200, "OK\nJVM Vendor: Oracle\nOS Name: Linux\n"⟩ =
      .ok [("JVM Vendor", "Oracle"), ("OS Name", "Linux")] ∧
    m.serverinfo ⟨200, "OK\nJVM Vendor: Oracle\nOS Name: Linux\n\n"⟩ =
      .error .valueError ∧
    serverinfoParseLine "JVM Version: 1.7.0: x  " =
      .ok ("JVM Version", "1.7.0: x") := by
  unfold ApacheTomcatManager.serverinfo
  rw [hc]
  exact ⟨rfl, rfl, rfl⟩

/-- Claim C7 witness: the amended statement instantiated at the
one-connection state. -/
theorem serverinfo_parsing_amended_witness :
    demoManager.connection =
      some (RequestConnection.make "h" 8080 "tomcat" "tomcat" 15) ∧
    demoManager.serverinfo ⟨200, "OK\nJVM Vendor: Oracle\nOS Name: Linux\n"⟩ =
      .ok [("JVM Vendor", "Oracle"), ("OS Name", "Linux")] :=
  ⟨by decide,
   (serverinfo_parsing_amended demoManager
      (RequestConnection.make "h" 8080 "tomcat" "tomcat" 15) (by decide)).1⟩

/-! ### Scan lemmas for `application_status` -/

theorem scanStatus_vs_find (path : String) (rows : List (List String))
    (h4 : ∀ row ∈ rows, row.length = 4) :
    (rows.find? (fun q => q.head? == some path) = none →
      scanStatus path rows = .error (.applicationNotFound path)) ∧
    (∀ row, rows.find? (fun q => q.head? == some path) = some row →
      ∃ a s x y, row = [a, s, x, y] ∧ a = path ∧
        scanStatus path rows = .ok s) := by
  induction rows with
  | nil => exact ⟨fun _ => rfl, fun row h => by cases h⟩
  | cons r rest ih =>
      have hr : r.length = 4 := h4 r (by simp)
      obtain ⟨a, s, x, y, hrow⟩ : ∃ a s x y, r = [a, s, x, y] := by
        match r, hr with
        | [a, s, x, y], _ => exact ⟨a, s, x, y, rfl⟩
      subst hrow
      have ihr := ih (fun row hm => h4 row (by simp [hm]))
      by_cases hap : a = path
      · subst hap
        constructor
        · intro hfind
          rw [List.find?_cons_of_pos _ (by simp)] at hfind
          cases hfind
        · intro row hfind
          rw [List.find?_cons_of_pos _ (by simp)] at hfind
          cases hfind
          exact ⟨a, s, x, y, rfl, rfl, by simp [scanStatus]⟩
      · have hneg : ¬((fun q => q.head? == some path) ([a, s, x, y] : List String) = true) := by
          simp [hap]
        have hstep := @List.find?_cons_of_neg (List String)
          (fun q => q.head? == some path) [a, s, x, y] rest hneg
        constructor
        · intro hfind
          rw [hstep] at hfind
          simpa [scanStatus, hap] using ihr.1 hfind
        · intro row hfind
          rw [hstep] at hfind
          obtain ⟨a', s', x', y', hrow, ha', hscan⟩ := ihr.2 row hfind
          exact ⟨a', s', x', y', hrow, ha', by simpa [scanStatus, hap] using hscan⟩

theorem scanStatus_malformed (path : String) (pre : List (List String))
    (bad : List String) (rest : List (List String))
    (hpre : ∀ row ∈ pre, ∃ a s x y, row = [a, s, x, y] ∧ a ≠ path)
    (hbad : bad.length ≠ 4) :
    scanStatus path (pre ++ bad :: rest) = .error .valueError := by
  induction pre with
  | nil =>
      match bad, hbad with
      | [], _ => rfl
      | [_], _ => rfl
      | [_, _], _ => rfl
      | [_, _, _], _ => rfl
      | [_, _, _, _], hbad => exact (hbad rfl).elim
      | _ :: _ :: _ :: _ :: _ :: _, _ => rfl
  | cons r pre ih =>
      obtain ⟨a, s, x, y, hrow, ha⟩ := hpre r (by simp)
      subst hrow
      have := ih (fun row hm => hpre row (by simp [hm]))
      simpa [scanStatus, ha] using this

/-- Claim C8: `application_status path` obtains the rows via `list()` (a
`list` failure propagates unchanged), linearly scans them for a row whose
first field equals the argument and returns that row's status field; when
no row matches it fails with the dedicated application-not-found error
(the raise site with the 'Application with path … not found' message),
not any other failure. Rows are assumed well-formed (4 fields each); the
malformed case is the subject of the next claim. -/
theorem application_status_scans_list (m : ApacheTomcatManager)
    (r : HttpResponse) (path : String) :
    (∀ e, m.list r = .error e → m.application_status r path = .error e) ∧
    (∀ rows, m.list r = .ok rows → (∀ row ∈ rows, row.length = 4) →
      ((rows.find? (fun q => q.head? == some path) = none →
         m.application_status r path = .error (.applicationNotFound path)) ∧
       (∀ row, rows.find? (fun q => q.head? == some path) = some row →
         ∃ a s x y, row = [a, s, x, y] ∧ a = path ∧
           m.application_status r path = .ok s))) := by
  constructor
  · intro e he
    unfold ApacheTomcatManager.application_status
    rw [he]
  · intro rows hrows h4
    have hscan := scanStatus_vs_find path rows h4
    have happ : m.application_status r path = scanStatus path rows := by
      unfold ApacheTomcatManager.application_status
      rw [hrows]
    constructor
    · intro hfind
      rw [happ]
      exact hscan.1 hfind
    · intro row hfind
      obtain ⟨a, s, x, y, hrow, ha, hs⟩ := hscan.2 row hfind
      exact ⟨a, s, x, y, hrow, ha, by rw [happ]; exact hs⟩

/-- Claim C8 witness: with one listed application, the status of a
missing path is the dedicated application-not-found error, and the status
of the listed path is returned. -/
theorem application_status_scans_list_witness :
    demoManager.list ⟨200, "OK\n/app:running:2:app\n"⟩ =
      .ok [["/app", "running", "2", "app"]] ∧
    demoManager.application_status ⟨200, "OK\n/app:running:2:app\n"⟩
        "/missing" = .error (.applicationNotFound "/missing") :=
  ⟨by decide,
   ((application_status_scans_list demoManager ⟨200, "OK\n/app:running:2:app\n"⟩
      "/missing").2 [["/app", "running", "2", "app"]] (by decide)
      (by decide)).1 (by decide)⟩

/-! ### HTTP status handling -/

theorem serverinfoParseLine_no_http (line : String) (e : TomcatError)
    (h : serverinfoParseLine line = .error e) : e = .valueError := by
  unfold serverinfoParseLine at h
  split at h
  · cases h
  · cases h
    rfl

theorem serverinfoLines_no_http (l : List String) (d : List (String × String))
    (s : Nat) : serverinfoLines l d ≠ .error (.httpError s) := by
  induction l generalizing d with
  | nil => simp [serverinfoLines]
  | cons line rest ih =>
      unfold serverinfoLines
      cases hp : serverinfoParseLine line with
      | error e =>
          have := serverinfoParseLine_no_http line e hp
          subst this
          simp
      | ok kv => exact ih (dictInsert d kv.1 kv.2)

/-- Claim C9 counterexample: a 304 response is not 2xx, yet `list` does
not raise the HTTP error — it parses the body and succeeds — because
`raise_for_status` only fires on 4xx/5xx statuses. -/
theorem http_status_not2xx_cex :
    demoManager.list ⟨304, "OK\nA\n"⟩ = .ok [["A"]] ∧
    ¬(200 ≤ (304 : Nat) ∧ (304 : Nat) < 300) := by
  decide

/-- Claim C9 amended: `list` and `serverinfo` raise the HTTP error exactly
when the response status is a client or server error (4xx/5xx, the codes
`raise_for_status` fires on), propagated immediately and never retried;
for all other statuses (2xx, but also 1xx/3xx) they never produce the HTTP
error; `application_start` / `application_stop` / `application_reload`
never raise the HTTP error for any status, since they do not check the
response status at all — any response surfaces only through the
exact-body-match failure. -/
theorem http_error_amended (m : ApacheTomcatManager) (c : RequestConnection)
    (r : HttpResponse) (path : String) (hc : m.connection = some c) :
    (400 ≤ r.status ∧ r.status < 600 →
      m.list r = .error (.httpError r.status) ∧
      m.serverinfo r = .error (.httpError r.status)) ∧
    (¬(400 ≤ r.status ∧ r.status < 600) →
      (∀ s, m.list r ≠ .error (.httpError s)) ∧
      (∀ s, m.serverinfo r ≠ .error (.httpError s))) ∧
    (∀ s, m.application_start r path ≠ .error (.httpError s)) ∧
    (∀ s, m.application_stop r path ≠ .error (.httpError s)) ∧
    (∀ s, m.application_reload r path ≠ .error (.httpError s)) := by
  refine ⟨fun h4 => ?_, fun h4 => ?_, ?_, ?_, ?_⟩
  · unfold ApacheTomcatManager.list ApacheTomcatManager.serverinfo
    rw [hc]
    simp [raise_for_status, h4]
  · have hok : raise_for_status r = .ok () := by
      simp [raise_for_status, h4]
    constructor
    · intro s
      unfold ApacheTomcatManager.list
      rw [hc, hok]
      simp
    · intro s
      unfold ApacheTomcatManager.serverinfo
      rw [hc, hok]
      exact serverinfoLines_no_http _ _ s
  · intro s
    unfold ApacheTomcatManager.application_start
    rw [hc]
    by_cases h : r.text = startTemplate path <;> simp [h]
  · intro s
    unfold ApacheTomcatManager.application_stop
    rw [hc]
    by_cases h : r.text = stopTemplate path <;> simp [h]
  · intro s
    unfold ApacheTomcatManager.application_reload
    rw [hc]
    by_cases h : r.text = reloadTemplate path <;> simp [h]

/-- Claim C9 witness: a 404 makes `list` raise the HTTP error, while
`application_start` on the same 404 response fails only through the body
match, not with the HTTP error. -/
theorem http_error_amended_witness :
    demoManager.connection =
      some (RequestConnection.make "h" 8080 "tomcat" "tomcat" 15) ∧
    demoManager.list ⟨404, "nf"⟩ = .error (.httpError 404) ∧
    demoManager.application_start ⟨404, "nf"⟩ "/app" ≠
      .error (.httpError 404) :=
  ⟨by decide,
   ((http_error_amended demoManager
      (RequestConnection.make "h" 8080 "tomcat" "tomcat" 15) ⟨404, "nf"⟩
      "/app" (by decide)).1 (by decide)).1,
   (http_error_amended demoManager
      (RequestConnection.make "h" 8080 "tomcat" "tomcat" 15) ⟨404, "nf"⟩
      "/app" (by decide)).2.2.1 404⟩

/-- Claim C10 counterexample: the list body has a malformed data line
(`"bad"`, one field), yet `application_status` for `/app` returns
`"running"` — the matching row precedes the malformed one, so the scan
returns before ever destructuring it, contradicting the claim that any
malformed data line makes the call fail with the unpacking error. -/
theorem status_malformed_line_cex :
    demoManager.list ⟨200, "OK\n/app:running:2:app\nbad\n"⟩ =
      .ok [["/app", "running", "2", "app"], ["bad"]] ∧
    (["bad"] : List String).length ≠ 4 ∧
    demoManager.application_status ⟨200, "OK\n/app:running:2:app\nbad\n"⟩
        "/app" = .ok "running" := by
  decide

/-- Claim C10 amended: if the rows returned by `list()` contain a line
that does not split into exactly 4 fields and every earlier row is a
4-field row whose path field differs from the argument, then the per-row
destructuring in `application_status` reaches the malformed row and fails
with the unpacking error — rather than returning a status or raising the
application-not-found error. (A malformed line occurring after the first
matching row is never destructured, as the counterexample shows.) -/
theorem status_unpack_error (m : ApacheTomcatManager) (r : HttpResponse)
    (path : String) (pre : List (List String)) (bad : List String)
    (rest : List (List String))
    (hlist : m.list r = .ok (pre ++ bad :: rest))
    (hpre : ∀ row ∈ pre, ∃ a s x y, row = [a, s, x, y] ∧ a ≠ path)
    (hbad : bad.length ≠ 4) :
    m.application_status r path = .error .valueError := by
  unfold ApacheTomcatManager.application_status
  rw [hlist]
  exact scanStatus_malformed path pre bad rest hpre hbad

/-- Claim C10 witness: a malformed line after one non-matching 4-field
row makes `application_status` fail with the unpacking error. -/
theorem status_unpack_error_witness :
    demoManager.list ⟨200, "OK\n/a:r:0:a\nbad\n"⟩ =
      .ok [["/a", "r", "0", "a"], ["bad"]] ∧
    demoManager.application_status ⟨200, "OK\n/a:r:0:a\nbad\n"⟩ "/x" =
      .error .valueError :=
  ⟨by decide,
   status_unpack_error demoManager ⟨200, "OK\n/a:r:0:a\nbad\n"⟩ "/x"
     [["/a", "r", "0", "a"]] ["bad"] [] (by decide)
     (by
       intro row hm
       rw [List.mem_singleton] at hm
       subst hm
       exact ⟨"/a", "r", "0", "a", rfl, by decide⟩)
     (by decide)⟩

end Tomcat
